import Mathlib

/-
Verification of the shared-service-client HTTP resilience layer
(src/client.go) against its natural-language specification.

The embedding models `doRequest` and its collaborators at the boundary
visible in src/client.go:
  * the HTTP transport (`httpClient.Do` plus the body read) is an oracle
    `Nat → TransportResult` giving the outcome of each successive
    transport attempt;
  * the circuit breaker (sony/gobreaker `Execute`) either fails fast with
    the text of `gobreaker.ErrOpenState` without invoking the work
    function, or runs the work function; trip transitions across attempts
    inside one call are not exercised by the claims and are not modelled;
  * the retry driver (cenkalti/backoff v4 `Retry` with `WithContext`)
    is modelled operationally: a permanent (non-retryable) error stops the
    loop at once; otherwise the context is consulted (Stop with the
    context's error when it is done), then the remaining delay budget
    (Stop with the last error when exhausted), then the interruptible
    sleep (the context's error when cancelled mid-sleep);
  * the request body is a one-shot stream, as `bytes.NewReader` is in Go:
    the request is built once before the loop, and a transport attempt
    drains it, so a later attempt sees no remaining payload;
  * errors are their Go error strings, since `isRetryableError` in the
    source classifies by exact string comparison.
-/

namespace ServiceClient

/-- Response mirrors `Response` of src/client.go: status code, headers and
the fully-read body (bytes are modelled as a string). -/
structure Response where
  statusCode : Nat
  headers : List (String × String)
  body : String
deriving DecidableEq

/-- IsSuccess mirrors `Response.IsSuccess` of src/client.go:
`r.StatusCode >= 200 && r.StatusCode < 300`. -/
def Response.IsSuccess (r : Response) : Bool :=
  decide (200 ≤ r.statusCode) && decide (r.statusCode < 300)

/-- Outcome of one transport attempt, at the `c.httpClient.Do` boundary of
src/client.go: `fail` is a non-nil error from `Do`, `readFail` a failure of
`io.ReadAll` on the body, `ok` a fully-read HTTP response. -/
inductive TransportResult where
  | fail (msg : String)
  | readFail (msg : String)
  | ok (status : Nat) (headers : List (String × String)) (body : String)
deriving DecidableEq

/-- isRetryableError mirrors `isRetryableError` of src/client.go: an exact
string comparison of the error text against four fixed messages; every
other error text (the `nil` case included, as the empty string never
matches) yields false. -/
def isRetryableError (msg : String) : Bool :=
  msg == "context deadline exceeded" ||
  msg == "context canceled" ||
  msg == "connection refused" ||
  msg == "connection reset"

/-- The transport request's body stream. `http.NewRequestWithContext` in
src/client.go wraps the marshalled bytes in a one-shot `bytes.Reader`;
`none` is a nil body (GET/DELETE). -/
structure Req where
  bodyRemaining : Option String
deriving DecidableEq

/-- Draining of the one-shot body reader by a transport attempt: after the
attempt, a present body has no bytes left to send. -/
def Req.consume : Req → Req
  | ⟨some _⟩ => ⟨some ""⟩
  | ⟨none⟩ => ⟨none⟩

/-- The work function passed to `circuitBreaker.Execute` in src/client.go:
run `Do`, read the body, and turn status `>= 500 || == 429` into the error
`"retryable status %d: %s"`; any other status becomes a `Response`. -/
def attemptExchange (t : TransportResult) : Except String Response :=
  match t with
  | .fail msg => .error msg
  | .readFail msg => .error ("read response: " ++ msg)
  | .ok st hs bdy =>
    if 500 ≤ st ∨ st = 429 then
      .error ("retryable status " ++ toString st ++ ": " ++ bdy)
    else
      .ok ⟨st, hs, bdy⟩

/-- One pass through `circuitBreaker.Execute`: an open breaker fails fast
with `gobreaker.ErrOpenState`'s text and does not touch the transport or
the body stream; otherwise the work function runs on the next transport
outcome, the body stream is drained, and the payload the attempt carried
is recorded. Returns (work result, updated request, updated sent log). -/
def loopStep (T : Nat → TransportResult) (brOpen : Bool) (req : Req)
    (sent : List (Option String)) :
    Except String Response × Req × List (Option String) :=
  if brOpen then
    (Except.error "circuit breaker is open", req, sent)
  else
    (attemptExchange (T sent.length), req.consume, sent ++ [req.bodyRemaining])

/-- Result of the retry loop: the final outcome, the number of operation
invocations (loop iterations), and the payload each transport call sent
(so its length is the number of transport calls). -/
structure LoopRes where
  result : Except String Response
  iters : Nat
  sent : List (Option String)

/-- The `backoff.Retry(op, backoff.WithContext(c.retryBackoff, ctx))` loop
of src/client.go. `op` makes one attempt through the breaker; a non-nil
error that `isRetryableError` rejects becomes `backoff.Permanent` and ends
the loop with that error unwrapped. Otherwise `NextBackOff` runs: the
context wrapper returns Stop when the context is done (checkpoint `2*i`),
the exponential policy returns Stop when its budget is spent, and a sleep
interrupted by cancellation (checkpoint `2*i+1`) returns the context's
error. `b` is the number of delays the policy still grants, `cd` tells
whether the context is done at a checkpoint, `ce` is the context's error
text. -/
def runLoop (T : Nat → TransportResult) (br : Bool) (cd : Nat → Bool)
    (ce : String) :
    Nat → Req → Nat → List (Option String) → LoopRes
  | 0, req, i, sent =>
    match loopStep T br req sent with
    | (Except.ok r, _, sent2) => ⟨Except.ok r, i + 1, sent2⟩
    | (Except.error msg, _, sent2) =>
      if isRetryableError msg then
        if cd (2 * i) then ⟨Except.error ce, i + 1, sent2⟩
        else ⟨Except.error msg, i + 1, sent2⟩
      else ⟨Except.error msg, i + 1, sent2⟩
  | b + 1, req, i, sent =>
    match loopStep T br req sent with
    | (Except.ok r, _, sent2) => ⟨Except.ok r, i + 1, sent2⟩
    | (Except.error msg, req2, sent2) =>
      if isRetryableError msg then
        if cd (2 * i) then ⟨Except.error ce, i + 1, sent2⟩
        else if cd (2 * i + 1) then ⟨Except.error ce, i + 1, sent2⟩
        else runLoop T br cd ce b req2 (i + 1) sent2
      else ⟨Except.error msg, i + 1, sent2⟩

/-- Trace span status, as set by `span.SetStatus` in src/client.go. -/
inductive SpanStatus where
  | unset
  | ok (msg : String)
  | error (msg : String)
deriving DecidableEq

/-- The inputs of one `doRequest` call, with the external collaborators of
src/client.go as oracles: `marshal` is the outcome of `json.Marshal` on
the body (`none` for a nil body), `newReqErr` a possible error of
`http.NewRequestWithContext`, `transport` the successive transport
outcomes, `breakerOpen` whether the breaker fails fast, `cd`/`budget`/
`ctxErrMsg` drive the backoff-with-context loop. -/
structure DoInput where
  method : String
  path : String
  marshal : Option (Except String String)
  newReqErr : Option String
  transport : Nat → TransportResult
  breakerOpen : Bool
  cd : Nat → Bool
  budget : Nat
  ctxErrMsg : String

/-- Everything observable about one `doRequest` call: the returned
`(*Response, error)` pair, the transport-call count, the loop-iteration
count, the payload each transport call sent, and the span's final
status, status-code attribute and whether it was ended. -/
structure DoResult where
  resp : Option Response
  err : Option String
  calls : Nat
  iters : Nat
  sentLog : List (Option String)
  spanStatus : SpanStatus
  spanStatusCodeAttr : Option Nat
  spanEnded : Bool

/-- The tail of `doRequest` after `backoff.Retry` returns: an error is
wrapped as `"request failed: %w"` with the span set to Error on the raw
error text; a response is returned with the status code attached as a span
attribute and span status Error `"HTTP %d"` when the status is `>= 400`,
Ok `"success"` otherwise. The deferred `span.End()` runs on every path. -/
def finishLoop (L : LoopRes) : DoResult :=
  match L.result with
  | Except.error msg =>
    ⟨none, some ("request failed: " ++ msg), L.sent.length, L.iters, L.sent,
      SpanStatus.error msg, none, true⟩
  | Except.ok r =>
    ⟨some r, none, L.sent.length, L.iters, L.sent,
      (if 400 ≤ r.statusCode then SpanStatus.error ("HTTP " ++ toString r.statusCode)
       else SpanStatus.ok "success"),
      some r.statusCode, true⟩

/-- doRequest mirrors `doRequest` of src/client.go: marshal the body (a
failure returns `"marshal request body: %w"` before any attempt), build
the transport request once (a failure returns `"create request: %w"`),
then run the breaker-wrapped attempt under `backoff.Retry`. Both early
returns set the span to Error and make no transport call. -/
def doRequest (inp : DoInput) : DoResult :=
  match inp.marshal, inp.newReqErr with
  | some (Except.error e), _ =>
    ⟨none, some ("marshal request body: " ++ e), 0, 0, [],
      SpanStatus.error e, none, true⟩
  | none, some e =>
    ⟨none, some ("create request: " ++ e), 0, 0, [],
      SpanStatus.error e, none, true⟩
  | some (Except.ok _), some e =>
    ⟨none, some ("create request: " ++ e), 0, 0, [],
      SpanStatus.error e, none, true⟩
  | none, none =>
    finishLoop (runLoop inp.transport inp.breakerOpen inp.cd inp.ctxErrMsg
      inp.budget ⟨none⟩ 0 [])
  | some (Except.ok s), none =>
    finishLoop (runLoop inp.transport inp.breakerOpen inp.cd inp.ctxErrMsg
      inp.budget ⟨some s⟩ 0 [])

/-- Get mirrors `Client.Get`: a nil body handed to doRequest. -/
def GetOp (inp : DoInput) : DoResult :=
  doRequest ⟨"GET", inp.path, none, inp.newReqErr, inp.transport,
    inp.breakerOpen, inp.cd, inp.budget, inp.ctxErrMsg⟩

/-- Delete mirrors `Client.Delete`: a nil body handed to doRequest. -/
def DeleteOp (inp : DoInput) : DoResult :=
  doRequest ⟨"DELETE", inp.path, none, inp.newReqErr, inp.transport,
    inp.breakerOpen, inp.cd, inp.budget, inp.ctxErrMsg⟩

/-- Post mirrors `Client.Post`: the body is passed through to doRequest. -/
def PostOp (inp : DoInput) : DoResult :=
  doRequest ⟨"POST", inp.path, inp.marshal, inp.newReqErr, inp.transport,
    inp.breakerOpen, inp.cd, inp.budget, inp.ctxErrMsg⟩

/-- Put mirrors `Client.Put`: the body is passed through to doRequest. -/
def PutOp (inp : DoInput) : DoResult :=
  doRequest ⟨"PUT", inp.path, inp.marshal, inp.newReqErr, inp.transport,
    inp.breakerOpen, inp.cd, inp.budget, inp.ctxErrMsg⟩

/-- Patch mirrors `Client.Patch`: the body is passed through to doRequest. -/
def PatchOp (inp : DoInput) : DoResult :=
  doRequest ⟨"PATCH", inp.path, inp.marshal, inp.newReqErr, inp.transport,
    inp.breakerOpen, inp.cd, inp.budget, inp.ctxErrMsg⟩

/-- One pass through the breaker grows the sent log by at most one entry. -/
theorem loopStep_sent_le (T : Nat → TransportResult) (br : Bool) (req : Req)
    (sent : List (Option String)) :
    ((loopStep T br req sent).2.2).length ≤ sent.length + 1 := by
  cases br <;> simp [loopStep]

/-- An open breaker ends the loop at once: the circuit-open error text is
not retryable, so the error is permanent, with the sent log untouched. -/
theorem runLoop_open (T : Nat → TransportResult) (cd : Nat → Bool) (ce : String)
    (b : Nat) (req : Req) (i : Nat) (sent : List (Option String)) :
    runLoop T true cd ce b req i sent =
      ⟨Except.error "circuit breaker is open", i + 1, sent⟩ := by
  cases b <;> rfl

/-- An attempt whose status is below 500 and not 429 ends the loop with
that response, after exactly one more iteration and one transport call. -/
theorem runLoop_success (T : Nat → TransportResult) (cd : Nat → Bool) (ce : String)
    (b i : Nat) (req : Req) (sent : List (Option String))
    (st : Nat) (hs : List (String × String)) (bdy : String)
    (hT : T sent.length = TransportResult.ok st hs bdy)
    (h5 : st < 500) (h4 : st ≠ 429) :
    runLoop T false cd ce b req i sent =
      ⟨Except.ok ⟨st, hs, bdy⟩, i + 1, sent ++ [req.bodyRemaining]⟩ := by
  have hcond : ¬ (500 ≤ st ∨ st = 429) := by omega
  cases b <;> simp [runLoop, loopStep, hT, attemptExchange, hcond]

/-- A non-retryable error ends the loop at once (backoff.Permanent). -/
theorem runLoop_permanent (T : Nat → TransportResult) (br : Bool) (cd : Nat → Bool)
    (ce : String) (b i : Nat) (req req2 : Req) (sent sent2 : List (Option String))
    (msg : String)
    (hstep : loopStep T br req sent = (Except.error msg, req2, sent2))
    (hnr : isRetryableError msg = false) :
    runLoop T br cd ce b req i sent = ⟨Except.error msg, i + 1, sent2⟩ := by
  cases b <;> simp [runLoop, hstep, hnr]

/-- When the context is already done at the backoff checkpoint of
iteration `i`, the loop performs no further iteration and at most the one
attempt of iteration `i` itself. -/
theorem runLoop_ctx_done (T : Nat → TransportResult) (br : Bool) (cd : Nat → Bool)
    (ce : String) (b i : Nat) (req : Req) (sent : List (Option String))
    (h : cd (2 * i) = true) :
    (runLoop T br cd ce b req i sent).iters = i + 1 ∧
    (runLoop T br cd ce b req i sent).sent.length ≤ sent.length + 1 := by
  rcases hLS : loopStep T br req sent with ⟨res, req2, sent2⟩
  have hlen : sent2.length ≤ sent.length + 1 := by
    have hl := loopStep_sent_le T br req sent
    rw [hLS] at hl
    exact hl
  cases b with
  | zero =>
    cases res with
    | ok r => simp [runLoop, hLS]; exact hlen
    | error msg =>
      by_cases hr : isRetryableError msg = true
      · simp [runLoop, hLS, hr, h]; exact hlen
      · simp [runLoop, hLS, hr]; exact hlen
  | succ b2 =>
    cases res with
    | ok r => simp [runLoop, hLS]; exact hlen
    | error msg =>
      by_cases hr : isRetryableError msg = true
      · simp [runLoop, hLS, hr, h]; exact hlen
      · simp [runLoop, hLS, hr]; exact hlen

/-- Claim C9: for every Response r, r.IsSuccess() returns true if and only
if 200 <= r.StatusCode < 300. -/
theorem C9_isSuccess_iff (r : Response) :
    r.IsSuccess = true ↔ (200 ≤ r.statusCode ∧ r.statusCode < 300) := by
  simp [Response.IsSuccess]

/-- Witness for C9 at the concrete response with status 204. -/
theorem C9_isSuccess_witness :
    Response.IsSuccess ⟨204, [], ""⟩ = true ↔ (200 ≤ 204 ∧ 204 < 300) :=
  C9_isSuccess_iff ⟨204, [], ""⟩

/-- Claim C7: a body that fails to serialize makes the call return the
encoding error immediately, with zero transport attempts, zero retry
iterations, and the span ended with Error status on that early return. -/
theorem C7_encoding_error (m p e : String) (nr : Option String)
    (T : Nat → TransportResult) (br : Bool) (cd : Nat → Bool) (b : Nat)
    (ce : String) :
    doRequest ⟨m, p, some (Except.error e), nr, T, br, cd, b, ce⟩ =
      ⟨none, some ("marshal request body: " ++ e), 0, 0, [],
        SpanStatus.error e, none, true⟩ := rfl

/-- Witness for C7 at a concrete failing marshal. -/
theorem C7_encoding_witness :
    doRequest ⟨"POST", "/e", some (Except.error "unsupported type"), none,
      (fun _ => TransportResult.ok 200 [] "b"), false, (fun _ => false), 3,
      "context canceled"⟩ =
      ⟨none, some ("marshal request body: " ++ "unsupported type"), 0, 0, [],
        SpanStatus.error "unsupported type", none, true⟩ :=
  C7_encoding_error "POST" "/e" "unsupported type" none
    (fun _ => TransportResult.ok 200 [] "b") false (fun _ => false) 3
    "context canceled"

/-- Claim C4: with the breaker open the call makes zero transport
attempts, and the circuit-open error is non-retryable: the loop ends after
its first iteration with the wrapped circuit-open error. -/
theorem C4_breaker_open_thm (m p ce : String) (T : Nat → TransportResult)
    (cd : Nat → Bool) (b : Nat) :
    doRequest ⟨m, p, none, none, T, true, cd, b, ce⟩ =
      ⟨none, some "request failed: circuit breaker is open", 0, 1, [],
        SpanStatus.error "circuit breaker is open", none, true⟩ := by
  show finishLoop (runLoop T true cd ce b ⟨none⟩ 0 []) = _
  rw [runLoop_open T cd ce b ⟨none⟩ 0 []]
  rfl

/-- Witness for C4 at a concrete call against an open breaker. -/
theorem C4_breaker_open_witness :
    doRequest ⟨"GET", "/c", none, none, (fun _ => TransportResult.ok 200 [] "b"),
      true, (fun _ => false), 2, "context canceled"⟩ =
      ⟨none, some "request failed: circuit breaker is open", 0, 1, [],
        SpanStatus.error "circuit breaker is open", none, true⟩ :=
  C4_breaker_open_thm "GET" "/c" "context canceled"
    (fun _ => TransportResult.ok 200 [] "b") (fun _ => false) 2

/-- Claim C5: an attempt whose status is neither >= 500 nor 429 ends the
call immediately: the loop returns that response as-is after one more
iteration, and at doRequest level the Response (status, headers, full
body) comes back with a nil error after exactly one transport call; a 404
is returned without retry and is not a success. -/
theorem C5_terminal_status (T : Nat → TransportResult) (cd : Nat → Bool)
    (ce m p : String) (b i : Nat) (req : Req) (sent : List (Option String))
    (st : Nat) (hs : List (String × String)) (bdy : String)
    (hT : T sent.length = TransportResult.ok st hs bdy)
    (hT0 : T 0 = TransportResult.ok st hs bdy)
    (h5 : st < 500) (h4 : st ≠ 429) :
    runLoop T false cd ce b req i sent =
      ⟨Except.ok ⟨st, hs, bdy⟩, i + 1, sent ++ [req.bodyRemaining]⟩ ∧
    doRequest ⟨m, p, none, none, T, false, cd, b, ce⟩ =
      ⟨some ⟨st, hs, bdy⟩, none, 1, 1, [none],
        (if 400 ≤ st then SpanStatus.error ("HTTP " ++ toString st)
         else SpanStatus.ok "success"), some st, true⟩ ∧
    (st = 404 → Response.IsSuccess ⟨st, hs, bdy⟩ = false) := by
  refine ⟨runLoop_success T cd ce b i req sent st hs bdy hT h5 h4, ?_, ?_⟩
  · show finishLoop (runLoop T false cd ce b ⟨none⟩ 0 []) = _
    rw [runLoop_success T cd ce b 0 ⟨none⟩ [] st hs bdy hT0 h5 h4]
    simp [finishLoop]
  · intro h404
    subst h404
    rfl

/-- Transport oracle for the C5 witness: a constant 404. -/
def C5T : Nat → TransportResult := fun _ => TransportResult.ok 404 [("k", "v")] "nf"

/-- Witness for C5: a 404 comes back as-is with no retry and is not a
success. -/
theorem C5_terminal_witness :
    (C5T 0 = TransportResult.ok 404 [("k", "v")] "nf" ∧ 404 < 500 ∧ 404 ≠ 429) ∧
    doRequest ⟨"GET", "/w", none, none, C5T, false, (fun _ => false), 3,
        "context canceled"⟩ =
      ⟨some ⟨404, [("k", "v")], "nf"⟩, none, 1, 1, [none],
        (if 400 ≤ 404 then SpanStatus.error ("HTTP " ++ toString (404 : Nat))
         else SpanStatus.ok "success"), some 404, true⟩ :=
  ⟨⟨rfl, by omega, by omega⟩,
    (C5_terminal_status C5T (fun _ => false) "context canceled" "GET" "/w" 3 0
      ⟨none⟩ [] 404 [("k", "v")] "nf" rfl rfl (by omega) (by omega)).2.1⟩

/-- Transport oracle for the C1 scenario: 503 twice, then 200. -/
def C1T : Nat → TransportResult := fun n =>
  if n = 0 then TransportResult.ok 503 [] "e1"
  else if n = 1 then TransportResult.ok 503 [] "e2"
  else TransportResult.ok 200 [] "okbody"

/-- Call input for the C1 scenario: closed breaker, live context and ample
retry budget against the 503,503,200 target. -/
def C1input : DoInput :=
  ⟨"GET", "/s", none, none, C1T, false, (fun _ => false), 10, "context canceled"⟩

/-- Claim C1 evaluated on the code: the 503 attempt produces the error
text "retryable status 503: e1", which isRetryableError does not accept,
so the retry driver marks it permanent: one transport call, no retry, and
the call fails instead of retrying twice and returning the 200. -/
theorem C1_bug_eval :
    (doRequest C1input).calls = 1 ∧
    (doRequest C1input).resp = none ∧
    (doRequest C1input).err = some "request failed: retryable status 503: e1" ∧
    isRetryableError "retryable status 503: e1" = false :=
  ⟨rfl, rfl, rfl, rfl⟩

/-- Transport oracle for the C3 scenario: the first attempt fails with the
exact text "connection reset" (which isRetryableError accepts), the second
reaches the target. -/
def C3T : Nat → TransportResult := fun n =>
  if n = 0 then TransportResult.fail "connection reset"
  else TransportResult.ok 200 [] "done"

/-- Call input for the C3 scenario: a POST whose body marshals to
"PAYLOAD", with a live context and remaining budget. -/
def C3input : DoInput :=
  ⟨"POST", "/p", some (Except.ok "PAYLOAD"), none, C3T, false,
    (fun _ => false), 5, "context canceled"⟩

/-- Claim C3 evaluated on the code: the transport request is built once
before the retry loop over a one-shot body reader, so the first attempt
carries "PAYLOAD" while the retry attempt has no bytes left to send — the
second attempt does not send the same serialized payload. -/
theorem C3_bug_eval :
    (doRequest C3input).sentLog = [some "PAYLOAD", some ""] ∧
    (doRequest C3input).resp = some ⟨200, [], "done"⟩ ∧
    some "" ≠ (some "PAYLOAD" : Option String) :=
  ⟨rfl, rfl, by decide⟩

/-- Call input for the C2 counterexample: one transport failure whose text
is a connection reset as the Go transport actually words it. -/
def C2input : DoInput :=
  ⟨"GET", "/r", none, none,
    (fun _ => TransportResult.fail "connection reset by peer"),
    false, (fun _ => false), 5, "context canceled"⟩

/-- Counterexample to claim C2: a transport-level connection failure with
a live (never canceled) context and remaining budget is not classified
retryable — the exact-string check rejects "connection reset by peer" —
so the call ends after a single transport attempt, where the claim demands
a further one. -/
theorem C2_counterexample :
    isRetryableError "connection reset by peer" = false ∧
    (doRequest C2input).calls = 1 ∧
    (doRequest C2input).err = some "request failed: connection reset by peer" :=
  ⟨rfl, rfl, rfl⟩

/-- Claim C2 as amended: a failed attempt is classified retryable exactly
when its error text is one of the four fixed strings, independently of the
context's state; separately, when the call context is already done at the
backoff checkpoint of the current iteration, the loop stops there: no
further iteration, at most that one attempt. -/
theorem C2_amended_thm :
    (∀ msg, isRetryableError msg = true ↔
      (msg = "context deadline exceeded" ∨ msg = "context canceled" ∨
       msg = "connection refused" ∨ msg = "connection reset")) ∧
    (∀ (T : Nat → TransportResult) (br : Bool) (cd : Nat → Bool) (ce : String)
       (b i : Nat) (req : Req) (sent : List (Option String)),
      cd (2 * i) = true →
      (runLoop T br cd ce b req i sent).iters = i + 1 ∧
      (runLoop T br cd ce b req i sent).sent.length ≤ sent.length + 1) := by
  constructor
  · intro msg
    simp [isRetryableError, or_assoc]
  · intro T br cd ce b i req sent h
    exact runLoop_ctx_done T br cd ce b i req sent h

/-- Witness for amended C2: a context already done at the first checkpoint
stops the loop after one iteration. -/
theorem C2_amended_witness :
    ((fun _ : Nat => true) (2 * 0) = true) ∧
    (runLoop (fun _ => TransportResult.fail "connection refused") false
      (fun _ => true) "context canceled" 5 ⟨none⟩ 0 []).iters = 0 + 1 :=
  ⟨rfl, (C2_amended_thm.2 (fun _ => TransportResult.fail "connection refused")
    false (fun _ => true) "context canceled" 5 0 ⟨none⟩ [] rfl).1⟩

/-- Call input for the C6 counterexample: the target answers 301. -/
def C6cexInput : DoInput :=
  ⟨"GET", "/m", none, none, (fun _ => TransportResult.ok 301 [] "moved"),
    false, (fun _ => false), 3, "context canceled"⟩

/-- Counterexample to claim C6: a call terminating with a 301 Response —
not a 2xx — still gets span status Ok "success", because the code only
marks the span Error for status >= 400. -/
theorem C6_counterexample :
    (doRequest C6cexInput).resp = some ⟨301, [], "moved"⟩ ∧
    ¬ (200 ≤ 301 ∧ 301 < 300) ∧
    (doRequest C6cexInput).spanStatus = SpanStatus.ok "success" :=
  ⟨rfl, by omega, rfl⟩

/-- A final DoResult carrying a Response got its span status from the
400 threshold and the status code as span attribute. -/
theorem finishLoop_resp_some (L : LoopRes) (r : Response)
    (h : (finishLoop L).resp = some r) :
    (finishLoop L).spanStatus =
      (if 400 ≤ r.statusCode then SpanStatus.error ("HTTP " ++ toString r.statusCode)
       else SpanStatus.ok "success") ∧
    (finishLoop L).spanStatusCodeAttr = some r.statusCode := by
  rcases L with ⟨res, iters, sent⟩
  cases res with
  | error msg => simp [finishLoop] at h
  | ok r2 =>
    simp [finishLoop] at h
    subst h
    exact ⟨rfl, rfl⟩

/-- Claim C6 as amended: whenever the call terminates with a Response, the
span status is Error "HTTP <code>" when the status is >= 400 and
Ok "success" otherwise (so Ok also covers 1xx and 3xx), and the numeric
status code is attached as a span attribute. -/
theorem C6_amended_thm (inp : DoInput) (r : Response)
    (h : (doRequest inp).resp = some r) :
    (doRequest inp).spanStatus =
      (if 400 ≤ r.statusCode then SpanStatus.error ("HTTP " ++ toString r.statusCode)
       else SpanStatus.ok "success") ∧
    (doRequest inp).spanStatusCodeAttr = some r.statusCode := by
  rcases inp with ⟨m, p, mar, nre, T, br, cd, b, ce⟩
  cases mar with
  | none =>
    cases nre with
    | none => exact finishLoop_resp_some _ r h
    | some e => exact Option.noConfusion h
  | some mr =>
    cases mr with
    | error e => exact Option.noConfusion h
    | ok s =>
      cases nre with
      | none => exact finishLoop_resp_some _ r h
      | some e => exact Option.noConfusion h

/-- Call input for the C6 witness: the target answers 404. -/
def C6winInput : DoInput :=
  ⟨"GET", "/n", none, none, (fun _ => TransportResult.ok 404 [] "nf"),
    false, (fun _ => false), 3, "context canceled"⟩

/-- Witness for amended C6 at a concrete 404 call. -/
theorem C6_amended_witness :
    (doRequest C6winInput).resp = some ⟨404, [], "nf"⟩ ∧
    ((doRequest C6winInput).spanStatus =
      (if 400 ≤ (404 : Nat) then SpanStatus.error ("HTTP " ++ toString (404 : Nat))
       else SpanStatus.ok "success") ∧
    (doRequest C6winInput).spanStatusCodeAttr = some 404) :=
  ⟨rfl, C6_amended_thm C6winInput ⟨404, [], "nf"⟩ rfl⟩

/-- A work-function result carrying a Response pins down the transport
outcome it came from and the one entry added to the sent log. -/
theorem loopStep_ok (T : Nat → TransportResult) (br : Bool) (req : Req)
    (sent : List (Option String)) (r : Response) (req2 : Req)
    (sent2 : List (Option String))
    (h : loopStep T br req sent = (Except.ok r, req2, sent2)) :
    T sent.length = TransportResult.ok r.statusCode r.headers r.body ∧
    sent2 = sent ++ [req.bodyRemaining] := by
  cases br with
  | true => simp [loopStep] at h
  | false =>
    simp only [loopStep, Bool.false_eq_true, if_false, Prod.mk.injEq] at h
    obtain ⟨h1, _, h3⟩ := h
    cases ht : T sent.length with
    | fail msg => rw [ht] at h1; simp [attemptExchange] at h1
    | readFail msg => rw [ht] at h1; simp [attemptExchange] at h1
    | ok st hhs bdy =>
      rw [ht] at h1
      by_cases hc : (500 ≤ st ∨ st = 429)
      · simp [attemptExchange, hc] at h1
      · simp [attemptExchange, hc] at h1
        subst h1
        exact ⟨rfl, h3.symm⟩

/-- A loop run ending in a response got it from a transport attempt: the
oracle's outcome at the index of the final call is exactly that
response's status, headers and body. -/
theorem runLoop_ok_from_transport (T : Nat → TransportResult) (br : Bool)
    (cd : Nat → Bool) (ce : String) (r : Response) :
    ∀ (b : Nat) (req : Req) (i : Nat) (sent : List (Option String)),
      (runLoop T br cd ce b req i sent).result = Except.ok r →
      ∃ n, (runLoop T br cd ce b req i sent).sent.length = n + 1 ∧
        T n = TransportResult.ok r.statusCode r.headers r.body := by
  intro b
  induction b with
  | zero =>
    intro req i sent h
    rcases hLS : loopStep T br req sent with ⟨res, req2, sent2⟩
    cases res with
    | ok r2 =>
      obtain ⟨hT, hs2⟩ := loopStep_ok T br req sent r2 req2 sent2 hLS
      simp only [runLoop, hLS] at h ⊢
      obtain rfl : r2 = r := by simpa using h
      exact ⟨sent.length, by simp [hs2], hT⟩
    | error msg =>
      cases hr : isRetryableError msg with
      | false => simp [runLoop, hLS, hr] at h
      | true =>
        cases h1 : cd (2 * i) with
        | true => simp [runLoop, hLS, hr, h1] at h
        | false => simp [runLoop, hLS, hr, h1] at h
  | succ b2 ih =>
    intro req i sent h
    rcases hLS : loopStep T br req sent with ⟨res, req2, sent2⟩
    cases res with
    | ok r2 =>
      obtain ⟨hT, hs2⟩ := loopStep_ok T br req sent r2 req2 sent2 hLS
      simp only [runLoop, hLS] at h ⊢
      obtain rfl : r2 = r := by simpa using h
      exact ⟨sent.length, by simp [hs2], hT⟩
    | error msg =>
      cases hr : isRetryableError msg with
      | false => simp [runLoop, hLS, hr] at h
      | true =>
        cases h1 : cd (2 * i) with
        | true => simp [runLoop, hLS, hr, h1] at h
        | false =>
          cases h2 : cd (2 * i + 1) with
          | true => simp [runLoop, hLS, hr, h1, h2] at h
          | false =>
            simp only [runLoop, hLS, hr, h1, h2] at h ⊢
            simp only [Bool.false_eq_true, if_false, if_true] at h ⊢
            exact ih req2 (i + 1) sent2 h

/-- Exactly-one-of for the loop-then-finish composition that doRequest
reduces to once marshalling and request creation have succeeded. -/
theorem finishLoop_exactly_one (T : Nat → TransportResult) (br : Bool)
    (cd : Nat → Bool) (ce : String) (b : Nat) (req : Req) :
    ((finishLoop (runLoop T br cd ce b req 0 [])).resp = none ↔
      (finishLoop (runLoop T br cd ce b req 0 [])).err ≠ none) ∧
    (∀ r : Response,
      (finishLoop (runLoop T br cd ce b req 0 [])).resp = some r →
      (finishLoop (runLoop T br cd ce b req 0 [])).err = none ∧
      ∃ n, (finishLoop (runLoop T br cd ce b req 0 [])).calls = n + 1 ∧
        T n = TransportResult.ok r.statusCode r.headers r.body) := by
  cases hres : (runLoop T br cd ce b req 0 []).result with
  | error msg =>
    constructor
    · simp [finishLoop, hres]
    · intro r h
      simp [finishLoop, hres] at h
  | ok r2 =>
    constructor
    · simp [finishLoop, hres]
    · intro r h
      simp [finishLoop, hres] at h
      subst h
      refine ⟨by simp [finishLoop, hres], ?_⟩
      obtain ⟨n, hn, hTn⟩ := runLoop_ok_from_transport T br cd ce r2 b req 0 [] hres
      exact ⟨n, by simp [finishLoop, hres, hn], hTn⟩

/-- Claim C10: every call returns exactly one of a Response or an error —
on every error path the returned Response is nil, and on the success path
the error is nil and the Response is exactly what the final transport
attempt produced (status, headers, full body bytes). -/
theorem C10_exactly_one (inp : DoInput) :
    ((doRequest inp).resp = none ↔ (doRequest inp).err ≠ none) ∧
    (∀ r : Response, (doRequest inp).resp = some r →
      (doRequest inp).err = none ∧
      ∃ n, (doRequest inp).calls = n + 1 ∧
        inp.transport n = TransportResult.ok r.statusCode r.headers r.body) := by
  rcases inp with ⟨m, p, mar, nre, T, br, cd, b, ce⟩
  cases mar with
  | none =>
    cases nre with
    | none => exact finishLoop_exactly_one T br cd ce b ⟨none⟩
    | some e =>
      constructor
      · simp [doRequest]
      · intro r h
        exact Option.noConfusion h
  | some mr =>
    cases mr with
    | error e =>
      constructor
      · simp [doRequest]
      · intro r h
        exact Option.noConfusion h
    | ok s =>
      cases nre with
      | none => exact finishLoop_exactly_one T br cd ce b ⟨some s⟩
      | some e =>
        constructor
        · simp [doRequest]
        · intro r h
          exact Option.noConfusion h

/-- Transport oracle for the C10 witness: a constant 200. -/
def C10T : Nat → TransportResult := fun _ => TransportResult.ok 200 [] "b"

/-- Call input for the C10 witness. -/
def C10input : DoInput :=
  ⟨"GET", "/g", none, none, C10T, false, (fun _ => false), 2, "context canceled"⟩

/-- Witness for C10 at a concrete successful call. -/
theorem C10_exactly_one_witness :
    ((doRequest C10input).resp = none ↔ (doRequest C10input).err ≠ none) ∧
    ((doRequest C10input).err = none ∧
      ∃ n, (doRequest C10input).calls = n + 1 ∧
        C10T n = TransportResult.ok 200 [] "b") :=
  ⟨(C10_exactly_one C10input).1,
    (C10_exactly_one C10input).2 ⟨200, [], "b"⟩ rfl⟩

/-- Modelled from the spec: the exponential backoff delay policy of §4.3.
The algorithm itself lives in the vendored cenkalti/backoff v4 library,
whose source is not part of this repository; src/client.go only sets its
tunables. Durations and factors are modelled as rationals. -/
structure BackoffPolicy where
  initialInterval : ℚ
  maxInterval : ℚ
  maxElapsedTime : ℚ
  multiplier : ℚ
  randomizationFactor : ℚ

/-- Modelled from the spec: the un-randomized delay sequence — the
starting delay is the initial interval and each subsequent delay is
min(previous delay × multiplier, max interval). -/
def baseDelay (p : BackoffPolicy) : Nat → ℚ
  | 0 => p.initialInterval
  | n + 1 => min (baseDelay p n * p.multiplier) p.maxInterval

/-- Modelled from the spec: the delay actually used before the next
attempt is the base delay randomized within ±(randomization factor ×
delay); `r n` in [-1, 1] is the jitter drawn for step n. -/
def realizedDelay (p : BackoffPolicy) (r : Nat → ℚ) (n : Nat) : ℚ :=
  baseDelay p n + p.randomizationFactor * baseDelay p n * r n

/-- Modelled from the spec: cumulative elapsed wall-clock time once
attempt n completes, where `d n` is the duration of attempt n: the first
attempt starts at zero and each later attempt is preceded by the realized
delay for the step before it. -/
def elapsedAfter (p : BackoffPolicy) (r d : Nat → ℚ) : Nat → ℚ
  | 0 => d 0
  | n + 1 => elapsedAfter p r d n + realizedDelay p r n + d (n + 1)

/-- The default retry tunables that src/client.go installs: initial 100ms,
max interval 5s, max elapsed 30s, multiplier 2, randomization factor 0.5
(in milliseconds). -/
def C8policy : BackoffPolicy := ⟨100, 5000, 30000, 2, 1 / 2⟩

/-- Jitter draws +1 then -1, both legal (within [-1, 1]). -/
def C8jitter : Nat → ℚ := fun n => if n = 0 then 1 else -1

/-- Counterexample to claim C8: with the default tunables of src/client.go
and legal jitter draws +1 then -1, the second realized delay (100ms) is
strictly smaller than the first (150ms): the sequence of retry delays is
not non-decreasing. -/
theorem C8_counterexample :
    |C8jitter 0| ≤ 1 ∧ |C8jitter 1| ≤ 1 ∧
    realizedDelay C8policy C8jitter 1 < realizedDelay C8policy C8jitter 0 := by
  refine ⟨by norm_num [C8jitter], by norm_num [C8jitter], ?_⟩
  norm_num [realizedDelay, baseDelay, C8policy, C8jitter, min_def]

/-- Base delays are nonnegative and capped by the max interval. -/
theorem baseDelay_nonneg_le (p : BackoffPolicy) (h0 : 0 ≤ p.initialInterval)
    (hinit : p.initialInterval ≤ p.maxInterval) (hm : 1 ≤ p.multiplier) :
    ∀ n, 0 ≤ baseDelay p n ∧ baseDelay p n ≤ p.maxInterval := by
  intro n
  induction n with
  | zero => exact ⟨h0, hinit⟩
  | succ k ih =>
    obtain ⟨hk0, hkM⟩ := ih
    constructor
    · show 0 ≤ min (baseDelay p k * p.multiplier) p.maxInterval
      exact le_min (mul_nonneg hk0 (le_trans zero_le_one hm)) (h0.trans hinit)
    · show min (baseDelay p k * p.multiplier) p.maxInterval ≤ p.maxInterval
      exact min_le_right _ _

/-- The base delay sequence never decreases. -/
theorem baseDelay_mono (p : BackoffPolicy) (h0 : 0 ≤ p.initialInterval)
    (hinit : p.initialInterval ≤ p.maxInterval) (hm : 1 ≤ p.multiplier)
    (n : Nat) : baseDelay p n ≤ baseDelay p (n + 1) := by
  obtain ⟨hn0, hnM⟩ := baseDelay_nonneg_le p h0 hinit hm n
  show baseDelay p n ≤ min (baseDelay p n * p.multiplier) p.maxInterval
  exact le_min (le_mul_of_one_le_right hn0 hm) hnM

/-- Claim C8 as amended: the un-randomized base delay sequence is
non-decreasing and capped at the max interval (each base delay is
min(previous × multiplier, max)); each realized delay deviates from its
base by at most randomization factor × base, so consecutive realized
delays may decrease; and a delay is only begun when elapsed time plus
that delay still fits the ceiling, hence total elapsed time never exceeds
the max-elapsed-time ceiling by more than the final attempt's duration. -/
theorem C8_amended_thm (p : BackoffPolicy) (r d : Nat → ℚ)
    (h0 : 0 ≤ p.initialInterval) (hinit : p.initialInterval ≤ p.maxInterval)
    (hm : 1 ≤ p.multiplier) (hrf : 0 ≤ p.randomizationFactor) :
    (∀ n, baseDelay p n ≤ baseDelay p (n + 1) ∧ baseDelay p n ≤ p.maxInterval) ∧
    (∀ n, |r n| ≤ 1 →
      |realizedDelay p r n - baseDelay p n| ≤
        p.randomizationFactor * baseDelay p n) ∧
    (∀ n, elapsedAfter p r d n + realizedDelay p r n ≤ p.maxElapsedTime →
      elapsedAfter p r d (n + 1) ≤ p.maxElapsedTime + d (n + 1)) := by
  refine ⟨fun n => ⟨baseDelay_mono p h0 hinit hm n,
      (baseDelay_nonneg_le p h0 hinit hm n).2⟩, fun n hr => ?_, fun n h => ?_⟩
  · have hb := (baseDelay_nonneg_le p h0 hinit hm n).1
    have hdiff : realizedDelay p r n - baseDelay p n =
        p.randomizationFactor * baseDelay p n * r n := by
      unfold realizedDelay
      ring
    rw [hdiff, abs_mul, abs_of_nonneg (mul_nonneg hrf hb)]
    calc p.randomizationFactor * baseDelay p n * |r n|
        ≤ p.randomizationFactor * baseDelay p n * 1 :=
          mul_le_mul_of_nonneg_left hr (mul_nonneg hrf hb)
      _ = p.randomizationFactor * baseDelay p n := mul_one _
  · show elapsedAfter p r d n + realizedDelay p r n + d (n + 1) ≤
      p.maxElapsedTime + d (n + 1)
    linarith

/-- Witness for amended C8 at the default tunables of src/client.go. -/
theorem C8_amended_witness :
    ((0 : ℚ) ≤ C8policy.initialInterval ∧
      C8policy.initialInterval ≤ C8policy.maxInterval ∧
      (1 : ℚ) ≤ C8policy.multiplier ∧
      (0 : ℚ) ≤ C8policy.randomizationFactor) ∧
    (baseDelay C8policy 0 ≤ baseDelay C8policy 1 ∧
      baseDelay C8policy 0 ≤ C8policy.maxInterval) :=
  ⟨⟨by norm_num [C8policy], by norm_num [C8policy], by norm_num [C8policy],
      by norm_num [C8policy]⟩,
    (C8_amended_thm C8policy C8jitter (fun _ => 1) (by norm_num [C8policy])
      (by norm_num [C8policy]) (by norm_num [C8policy])
      (by norm_num [C8policy])).1 0⟩

end ServiceClient
